import Mathlib

/-!
Verification development for the Lekhoni novel-writing workspace, centred on
the batched image-generation client in `src/services/geminiService.ts`.

The TypeScript source is shallowly embedded as pure Lean functions:

* The remote endpoint is abstracted by an explicit oracle.  For the batch
  generator the oracle `env : Nat → Nat → EndpointResult` gives the remote
  response for slot `i`, attempt `a` (attempt numbers are 0-based call
  indices within a slot).  For the thin text helpers the oracle is the single
  call's outcome, `Except Unit (Option String)` (`Except.error` models a
  thrown exception, the `Option String` models `response.text`, which may be
  absent).
* JavaScript truthiness on strings is modelled explicitly: a string field is
  "truthy" iff it is nonempty; an optional field is truthy iff it is present
  and its string content is nonempty.
* `await delay(ms)` calls are recorded in an explicit list of waited
  durations (in milliseconds), in the order they occur, so that the retry /
  backoff policy is observable.
* The `while (attempts < 3 && !generated)` loop of the batch generator is
  written with a structural `fuel` argument kept equal to `3 - attempts`:
  the loop guard `attempts < 3` holds exactly while `fuel > 0`, and every
  iteration that continues the loop increments `attempts` and decrements
  `fuel`.  Likewise the `for (let i = 0; i < count; i++)` slot loop uses
  fuel `count - i`.
-/

/-- `hasSubstr pat l` is `true` iff the character list `pat` occurs as a
contiguous run inside `l`.  Embeds JavaScript `String.prototype.includes`. -/
def hasSubstr (pat : List Char) : List Char → Bool
  | [] => pat.isPrefixOf []
  | c :: t => pat.isPrefixOf (c :: t) || hasSubstr pat t

/-- `strIncludes s pat` embeds the JavaScript expression `s.includes(pat)`. -/
def strIncludes (s pat : String) : Bool :=
  hasSubstr pat.data s.data

/-- `sliceLast s n` is the suffix of `s` of length `min n s.length`: the
JavaScript expression `s.slice(-n)` (source `geminiService.ts:38`). -/
def sliceLast (s : String) (n : Nat) : String :=
  String.mk (s.data.drop (s.data.length - n))

/-- One content part of an image-endpoint response
(`response.candidates?.[0]?.content?.parts`).  `inlineData = some d` models a
part carrying an `inlineData` object whose `data` field is the base64 string
`d`; `text = some t` models a part carrying a `text` field `t`.  JavaScript
truthiness makes `some ""` behave like an absent field. -/
structure ContentPart where
  inlineData : Option String
  text : Option String
  deriving DecidableEq

/-- A thrown JavaScript error as inspected by the batch loop
(`geminiService.ts:205-209`): its `message` string (always a string on
`Error` instances, default `""`), its optional `status` field and the
optional `error.code` field of its nested `error` object. -/
structure JsError where
  message : String
  status : Option Nat
  errorCode : Option Nat
  deriving DecidableEq

/-- Outcome of one raw call to the image endpoint
(`ai.models.generateContent`): either a response whose content parts are
`parts` (the optional chaining `response.candidates?.[0]?.content?.parts || []`
already collapsed to a plain list), or a thrown error. -/
inductive EndpointResult where
  | ok (parts : List ContentPart)
  | err (e : JsError)
  deriving DecidableEq

/-- The error thrown at `geminiService.ts:182`:
`new Error("No image data returned from API")`. -/
def noImageErr : JsError :=
  { message := "No image data returned from API", status := none, errorCode := none }

/-- The error thrown at `geminiService.ts:180` when the model answered with
text `t` instead of an image:
`new Error(`Model responded with text instead of image: "${t.slice(0, 100)}..."`)`. -/
def textRefusalErr (t : String) : JsError :=
  { message := "Model responded with text instead of image: \"" ++ t.take 100 ++ "...\"",
    status := none, errorCode := none }

/-- `if (part.text) refusalText += part.text;` (`geminiService.ts:169-171`):
append a part's text to the accumulated refusal text when it is truthy. -/
def addText (acc : String) (p : ContentPart) : String :=
  match p.text with
  | some t => if t = "" then acc else acc ++ t
  | none => acc

/-- The part-scanning loop of `generateSingleImage`
(`geminiService.ts:163-182`): return a data URI at the first part with truthy
`inlineData.data`; otherwise accumulate truthy texts, and after the loop throw
the text-refusal error when any text was seen, else the no-image error. -/
def scanParts : List ContentPart → String → Except JsError String
  | [], acc =>
    if acc = "" then Except.error noImageErr else Except.error (textRefusalErr acc)
  | p :: ps, acc =>
    match p.inlineData with
    | some d =>
      if d = "" then scanParts ps (addText acc p)
      else Except.ok ("data:image/png;base64," ++ d)
    | none => scanParts ps (addText acc p)

/-- One generation attempt, `generateSingleImage`
(`geminiService.ts:149-186`), as a function of the endpoint call's outcome.
A thrown endpoint error is re-thrown unchanged (the `catch` at line 183-185
is the identity). -/
def generateSingleImage : EndpointResult → Except JsError String
  | EndpointResult.ok parts => scanParts parts ""
  | EndpointResult.err e => Except.error e

/-- The rate-limit classifier of the batch loop (`geminiService.ts:205-209`):
`(error.message && error.message.includes('429')) || (error.status === 429) ||
(error.error && error.error.code === 429) ||
(error.message && error.message.includes('RESOURCE_EXHAUSTED'))`. -/
def isRateLimit (e : JsError) : Bool :=
  (e.message != "" && strIncludes e.message "429") ||
  e.status == some 429 ||
  e.errorCode == some 429 ||
  (e.message != "" && strIncludes e.message "RESOURCE_EXHAUSTED")

/-- Result of processing one slot of the batch: the generated image when the
slot succeeded, the list of waited delays in milliseconds, in order, and the
number of endpoint calls the slot made. -/
structure SlotResult where
  image : Option String
  delays : List Nat
  calls : Nat
  deriving DecidableEq

/-- The per-slot retry loop `while (attempts < 3 && !generated)`
(`geminiService.ts:196-230`), for the slot whose attempt outcomes are given
by `env`.  `attempts` counts failed attempts so far and `fuel = 3 - attempts`
drives the structural recursion (the guard `attempts < 3` holds iff
`fuel > 0`; a successful attempt ends the loop at once, so at the start of an
iteration `attempts` equals the number of calls already made).  On a failure
`attempts` is incremented first; then a rate-limit failure waits
`2000 * 2 ^ attempts` ms and retries, a "Model responded with text" failure
with `attempts < 2` waits 1000 ms and retries, and any other failure breaks
out of the loop. -/
def slotGo (env : Nat → EndpointResult) : Nat → Nat → List Nat → SlotResult
  | 0, attempts, delays => { image := none, delays := delays, calls := attempts }
  | fuel + 1, attempts, delays =>
    match generateSingleImage (env attempts) with
    | Except.ok img => { image := some img, delays := delays, calls := attempts + 1 }
    | Except.error e =>
      if isRateLimit e then
        slotGo env fuel (attempts + 1) (delays ++ [2000 * 2 ^ (attempts + 1)])
      else if strIncludes e.message "Model responded with text" && attempts + 1 < 2 then
        slotGo env fuel (attempts + 1) (delays ++ [1000])
      else
        { image := none, delays := delays, calls := attempts + 1 }

/-- One full slot: the retry loop started with `attempts = 0` and no delays
(`geminiService.ts:193-230`). -/
def runSlot (env : Nat → EndpointResult) : SlotResult :=
  slotGo env 3 0 []

/-- The sequential batch loop `for (let i = 0; i < count; i++)`
(`geminiService.ts:192-236`): run each slot in order, append its image (if
any) to the accumulated list, record its delays, and after a successful slot
that is not the last one wait a 2000 ms politeness delay.  The structural
fuel equals `count - i`. -/
def batchGo (env : Nat → Nat → EndpointResult) (count : Nat) :
    Nat → Nat → List String → List Nat → List String × List Nat
  | 0, _, imgs, delays => (imgs, delays)
  | fuel + 1, i, imgs, delays =>
    let r := runSlot (env i)
    batchGo env count fuel (i + 1) (imgs ++ r.image.toList)
      (delays ++ r.delays ++ (if r.image.isSome ∧ i < count - 1 then [2000] else []))

/-- The list of successful images accumulated by the batch loop
(`successfulImages` at `geminiService.ts:188-236`). -/
def batchImages (env : Nat → Nat → EndpointResult) (count : Nat) : List String :=
  (batchGo env count count 0 [] []).1

/-- All delays waited during the batch, in order. -/
def batchDelays (env : Nat → Nat → EndpointResult) (count : Nat) : List Nat :=
  (batchGo env count count 0 [] []).2

/-- The message of the terminal batch-level error (`geminiService.ts:239`). -/
def unableMsg : String :=
  "Unable to generate images. The model may be refusing the prompt or the service is busy."

/-- The batch generator `generateImage` (`geminiService.ts:117-243`) viewed
through the endpoint oracle `env`: after all `count` slots are processed, an
empty result list becomes the terminal error, otherwise the accumulated list
is returned (`geminiService.ts:238-242`). -/
def generateImage (env : Nat → Nat → EndpointResult) (count : Nat) :
    Except String (List String) :=
  if (batchImages env count).length = 0 then Except.error unableMsg
  else Except.ok (batchImages env count)

/-- The `stylePrompts` record literal (`geminiService.ts:123-132`) as a
lookup returning `none` for a key that is not one of its eight entries. -/
def stylePrompts (style : String) : Option String :=
  if style = "Cinematic" then
    some "Style: Cinematic, high-contrast, moody, dramatic lighting, detailed, depth of field."
  else if style = "Photorealistic" then
    some "Style: Photorealistic, realistic textures, ray tracing, hyper-realism."
  else if style = "Anime" then
    some "Style: Anime style, vibrant colors, detailed backgrounds, emotional atmosphere."
  else if style = "Watercolor" then
    some "Style: Watercolor painting, soft edges, artistic, dreamy, paper texture."
  else if style = "Impressionistic" then
    some "Style: Impressionist painting, visible brushstrokes, vibrant colors."
  else if style = "Surrealist" then
    some "Style: Surrealism, dream-like imagery, illogical scenes, unexpected juxtapositions."
  else if style = "Bengali Art" then
    some "Style: Bengali novel cover art style, artistic, cultural aesthetic."
  else if style = "Digital Art" then
    some "Style: Digital art, vibrant, clear, detailed."
  else none

/-- `stylePrompts[style] || stylePrompts['Digital Art']`
(`geminiService.ts:134`): a missing key falls back to the `'Digital Art'`
entry (which is present, so the inner fallback `""` is unreachable). -/
def selectedStyle (style : String) : String :=
  match stylePrompts style with
  | some s => s
  | none =>
    match stylePrompts "Digital Art" with
    | some s => s
    | none => ""

/-- The maturity fragment (`geminiService.ts:136-138`). -/
def contentStyle (isAdult : Bool) : String :=
  if isAdult then "Mood: Mature, serious, sophisticated."
  else "Mood: Inviting, clear, general audience."

/-- The composed image prompt sent to the endpoint, the template literal at
`geminiService.ts:141-144`. -/
def composeImagePrompt (prompt : String) (style : String) (isAdult : Bool) : String :=
  "Generate an image. Do not offer descriptions.\n    Visual Description: " ++ prompt ++
    "\n    " ++ selectedStyle style ++ "\n    " ++ contentStyle isAdult

/-- JavaScript `v || fallback` on an optional string `v`
(`response.text || fallback`): the fallback is used when `v` is absent or
empty. -/
def jsOr (v : Option String) (fallback : String) : String :=
  match v with
  | some t => if t = "" then fallback else t
  | none => fallback

/-- The prompt of `generateStoryIdea` (`geminiService.ts:12-17`). -/
def generateStoryIdeaPrompt (genre : String) (isAdult : Bool) : String :=
  "Generate a unique and engaging story idea for a Bengali novel in the " ++ genre ++
    " genre. \n    " ++
    (if isAdult then
      "The story is intended for a mature audience (18+), so it can deal with complex, dark, or romantic themes deeply."
    else "Keep the content suitable for general audiences.") ++
    "\n    Provide the output in Bengali language primarily, with an English translation in parentheses for the title.\n    Format:\n    Title: [Bengali Title]\n    Synopsis: [Brief plot summary in Bengali]"

/-- `generateStoryIdea` (`geminiService.ts:10-33`) as a function of the
endpoint call's outcome: a thrown error degrades to a fixed error string, a
missing/empty `response.text` to a fixed placeholder. -/
def generateStoryIdea (genre : String) (isAdult : Bool)
    (endpoint : Except Unit (Option String)) : String :=
  match genre, isAdult, endpoint with
  | _, _, Except.ok r => jsOr r "Could not generate idea."
  | _, _, Except.error _ => "Error generating idea. Please check your API key or connection."

/-- `recentText` of `expandText` (`geminiService.ts:38`):
`currentText ? currentText.slice(-500) : ""`. -/
def recentTextOf (currentText : String) : String :=
  if currentText = "" then "" else sliceLast currentText 500

/-- The prompt of `expandText` (`geminiService.ts:40-54`). -/
def expandPrompt (currentText context : String) : String :=
  "You are an expert Bengali novelist acting as a co-author. Your task is to continue the story seamlessly.\n\n[STORY CONTEXT]\n" ++
    context ++ "\n\n[RECENT NARRATIVE]\n\"..." ++ recentTextOf currentText ++
    "\"\n\n[WRITING INSTRUCTIONS]\n1. **Analyze Context**: Integrate the \x27Synopsis\x27 and \x27Current Chapter Title\x27 into the narrative flow.\n2. **Character Voice & Consistency**: STRICTLY ADHERE to the [CHARACTERS & PROFILES] section provided in the context. Ensure character dialogue, actions, and mannerisms exactly match their roles and descriptions.\n3. **Match Tone**: Analyze the [RECENT NARRATIVE] for vocabulary (Sadhu/Chalit) and pacing. Maintain this exact style.\n4. **Foreshadowing & Twists**: Incorporate subtle foreshadowing or narrative hints that suggest potential future plot twists based on the synopsis.\n5. **Task**: Write the next 2-3 logical paragraphs in Bengali.\n6. **Constraint**: Do not repeat the recent narrative. Start exactly where the text ends."

/-- `expandText` (`geminiService.ts:35-66`) as a function of the endpoint
call's outcome: any failure degrades to the empty string. -/
def expandText (currentText context : String)
    (endpoint : Except Unit (Option String)) : String :=
  match currentText, context, endpoint with
  | _, _, Except.ok r => jsOr r ""
  | _, _, Except.error _ => ""

/-- The prompt of `suggestCharacter` (`geminiService.ts:70-71`). -/
def suggestCharacterPrompt (genre : String) : String :=
  "Create a detailed character profile for a " ++ genre ++
    " novel in Bengali.\n    Include: Name, Age, Role, Physical Description, and a Secret they are hiding."

/-- `suggestCharacter` (`geminiService.ts:68-82`): any failure degrades to
the empty string. -/
def suggestCharacter (genre : String) (endpoint : Except Unit (Option String)) : String :=
  match genre, endpoint with
  | _, Except.ok r => jsOr r ""
  | _, Except.error _ => ""

/-- The prompt of `translateToBengali` (`geminiService.ts:86`). -/
def translatePrompt (text : String) : String :=
  "Translate the following text into natural, literary Bengali (Sadhu or Chalit bhasha suitable for novels): \"" ++
    text ++ "\""

/-- `translateToBengali` (`geminiService.ts:84-95`): a thrown error degrades
to the fixed string `"Translation failed."`, a missing/empty `response.text`
to the empty string. -/
def translateToBengali (text : String) (endpoint : Except Unit (Option String)) : String :=
  match text, endpoint with
  | _, Except.ok r => jsOr r ""
  | _, Except.error _ => "Translation failed."

/-- The prompt of `generateSceneDescription` (`geminiService.ts:99-105`);
`chapterContent.slice(0, 2000)` is `String.take 2000`. -/
def sceneDescriptionPrompt (chapterContent genre : String) : String :=
  "Analyze the following story segment (Genre: " ++ genre ++
    "). \n        Extract a vivid, detailed visual description of a key scene suitable for an AI image generator. \n        Focus on lighting, colors, character appearance, and environment. \n        Keep it in English for better image generation results.\n        \n        Text Segment:\n        \"" ++
    chapterContent.take 2000 ++ "...\""

/-- `generateSceneDescription` (`geminiService.ts:97-115`): a thrown error
degrades to `"A scene from the story."`, a missing/empty `response.text` to
`"A dramatic scene from the story."`. -/
def generateSceneDescription (chapterContent genre : String)
    (endpoint : Except Unit (Option String)) : String :=
  match chapterContent, genre, endpoint with
  | _, _, Except.ok r => jsOr r "A dramatic scene from the story."
  | _, _, Except.error _ => "A scene from the story."

set_option maxRecDepth 10000

/-!  Specification-side characterisation of the per-attempt classification,
used to state the refinement theorem for `generateSingleImage`. -/

/-- The data of the first part carrying truthy inline image data, if any
(spec: "if any part carries inline binary image data"). -/
def firstImageData : List ContentPart → Option String
  | [] => none
  | p :: ps =>
    match p.inlineData with
    | some d => if d = "" then firstImageData ps else some d
    | none => firstImageData ps

/-- The concatenation of all truthy part texts (spec: "the concatenation of
that text"). -/
def allText : List ContentPart → String
  | [] => ""
  | p :: ps => addText "" p ++ allText ps

/-- What the part scan is specified to produce, as a function of
`firstImageData` and the accumulated text. -/
def scanSpec (parts : List ContentPart) (acc : String) : Except JsError String :=
  match firstImageData parts with
  | some d => Except.ok ("data:image/png;base64," ++ d)
  | none =>
    if acc ++ allText parts = "" then Except.error noImageErr
    else Except.error (textRefusalErr (acc ++ allText parts))

/-!  Concrete fixtures used to instantiate the theorems below. -/

/-- A rate-limited endpoint error: message mentions 429 and `status` is 429. -/
def rlErr429 : JsError :=
  { message := "429 Too Many Requests", status := some 429, errorCode := none }

/-- A terminal per-slot error that is neither a rate limit nor a text-only
refusal (for example a safety block surfaced as a generic exception). -/
def safetyErr : JsError :=
  { message := "Request blocked by safety settings", status := none, errorCode := none }

/-- A response part carrying inline image data. -/
def sampleImagePart : ContentPart := { inlineData := some "AA", text := none }

/-- A text-only response (the model chatted instead of returning an image). -/
def textOnlyParts : List ContentPart :=
  [{ inlineData := none, text := some "I cannot generate that image." }]

/-- The error `generateSingleImage` derives from `textOnlyParts`. -/
def textOnlyErr : JsError := textRefusalErr "I cannot generate that image."

/-- An endpoint that always rate-limits. -/
def envAllRateLimited : Nat → EndpointResult := fun _ => EndpointResult.err rlErr429

/-- A slot endpoint that always answers with text only. -/
def envTextOnly : Nat → EndpointResult := fun _ => EndpointResult.ok textOnlyParts

/-- A batch endpoint that always succeeds. -/
def envAllOk : Nat → Nat → EndpointResult := fun _ _ => EndpointResult.ok [sampleImagePart]

/-- A batch endpoint that always returns an empty response (no parts). -/
def envEmptyResp : Nat → Nat → EndpointResult := fun _ _ => EndpointResult.ok []

/-- A batch endpoint whose slot 0 succeeds and whose later slots fail with a
terminal, non-retryable error. -/
def envPartial : Nat → Nat → EndpointResult := fun i _ =>
  if i = 0 then EndpointResult.ok [sampleImagePart] else EndpointResult.err safetyErr

theorem addText_eq (acc : String) (p : ContentPart) :
    addText acc p = acc ++ addText "" p := by
  unfold addText
  cases p.text with
  | none => exact (String.append_empty acc).symm
  | some t =>
    by_cases h : t = ""
    · simp [h, String.append_empty]
    · simp only [if_neg h]
      rfl

theorem scanParts_eq_spec (parts : List ContentPart) :
    ∀ acc, scanParts parts acc = scanSpec parts acc := by
  induction parts with
  | nil =>
    intro acc
    simp [scanParts, scanSpec, firstImageData, allText, String.append_empty]
  | cons p ps ih =>
    intro acc
    have key : addText acc p ++ allText ps = acc ++ (addText "" p ++ allText ps) := by
      rw [addText_eq acc p, String.append_assoc]
    rcases hid : p.inlineData with _ | d
    · calc scanParts (p :: ps) acc = scanParts ps (addText acc p) := by
            simp [scanParts, hid]
        _ = scanSpec ps (addText acc p) := ih _
        _ = scanSpec (p :: ps) acc := by
            simp only [scanSpec, firstImageData, allText, hid, key]
    · by_cases hd : d = ""
      · calc scanParts (p :: ps) acc = scanParts ps (addText acc p) := by
              simp [scanParts, hid, hd]
          _ = scanSpec ps (addText acc p) := ih _
          _ = scanSpec (p :: ps) acc := by
              simp only [scanSpec, firstImageData, allText, hid, if_pos hd, key]
      · simp [scanParts, scanSpec, firstImageData, hid, hd]

/-!  Per-slot lemmas. -/

theorem slot_first_ok (env : Nat → EndpointResult) (s : String)
    (h : generateSingleImage (env 0) = Except.ok s) :
    runSlot env = { image := some s, delays := [], calls := 1 } := by
  simp [runSlot, slotGo, h]

theorem slot_first_terminal (env : Nat → EndpointResult) (e : JsError)
    (h : generateSingleImage (env 0) = Except.error e)
    (hrl : isRateLimit e = false)
    (htx : strIncludes e.message "Model responded with text" = false) :
    runSlot env = { image := none, delays := [], calls := 1 } := by
  simp [runSlot, slotGo, h, hrl, htx]

theorem slotGo_delays_mono (env : Nat → EndpointResult) :
    ∀ fuel attempts d, ∃ d2, (slotGo env fuel attempts d).delays = d ++ d2 := by
  intro fuel
  induction fuel with
  | zero => intro a d; exact ⟨[], by simp [slotGo]⟩
  | succ f ih =>
    intro a d
    cases hgsi : generateSingleImage (env a) with
    | ok s => exact ⟨[], by simp [slotGo, hgsi]⟩
    | error e =>
      by_cases hrl : isRateLimit e
      · obtain ⟨d2, hd2⟩ := ih (a + 1) (d ++ [2000 * 2 ^ (a + 1)])
        exact ⟨2000 * 2 ^ (a + 1) :: d2, by simp [slotGo, hgsi, hrl, hd2]⟩
      · by_cases htx : (strIncludes e.message "Model responded with text" && decide (a + 1 < 2)) = true
        · obtain ⟨d2, hd2⟩ := ih (a + 1) (d ++ [1000])
          exact ⟨1000 :: d2, by simp [slotGo, hgsi, hrl, htx, hd2]⟩
        · exact ⟨[], by simp [slotGo, hgsi, hrl, htx]⟩

theorem slotGo_calls_ge (env : Nat → EndpointResult) :
    ∀ fuel attempts d, 1 ≤ fuel → attempts + 1 ≤ (slotGo env fuel attempts d).calls := by
  intro fuel
  induction fuel with
  | zero => intro a d h; exact absurd h (by omega)
  | succ f ih =>
    intro a d _
    cases hgsi : generateSingleImage (env a) with
    | ok s => simp [slotGo, hgsi]
    | error e =>
      by_cases hrl : isRateLimit e
      · rcases Nat.eq_zero_or_pos f with hf | hf
        · subst hf; simp [slotGo, hgsi, hrl]
        · have := ih (a + 1) (d ++ [2000 * 2 ^ (a + 1)]) hf
          simp only [slotGo, hgsi, hrl, if_true]
          omega
      · by_cases htx : (strIncludes e.message "Model responded with text" && decide (a + 1 < 2)) = true
        · rcases Nat.eq_zero_or_pos f with hf | hf
          · subst hf; simp [slotGo, hgsi, hrl, htx]
          · have := ih (a + 1) (d ++ [1000]) hf
            simp only [slotGo, hgsi, hrl, htx, if_true, if_false, Bool.false_eq_true]
            omega
        · simp [slotGo, hgsi, hrl, htx]

/-!  Batch-loop lemmas. -/

theorem batchGo_len_le (env : Nat → Nat → EndpointResult) (count : Nat) :
    ∀ fuel i imgs d, ((batchGo env count fuel i imgs d).1).length ≤ imgs.length + fuel := by
  intro fuel
  induction fuel with
  | zero => intro i imgs d; simp [batchGo]
  | succ f ih =>
    intro i imgs d
    simp only [batchGo]
    refine le_trans (ih _ _ _) ?_
    have h1 : (runSlot (env i)).image.toList.length ≤ 1 := by
      cases (runSlot (env i)).image <;> simp
    simp only [List.length_append]
    omega

theorem batchGo_split (env : Nat → Nat → EndpointResult) (count : Nat) :
    ∀ a b i imgs d,
      batchGo env count (a + b) i imgs d =
        batchGo env count b (i + a)
          (batchGo env count a i imgs d).1 (batchGo env count a i imgs d).2 := by
  intro a
  induction a with
  | zero => intro b i imgs d; simp [batchGo]
  | succ a ih =>
    intro b i imgs d
    have hfuel : a + 1 + b = (a + b) + 1 := by omega
    rw [hfuel]
    simp only [batchGo]
    rw [ih]
    have hi : i + 1 + a = i + (a + 1) := by omega
    rw [hi]

theorem batchGo_all_success (env : Nat → Nat → EndpointResult) (count : Nat)
    (f : Nat → String) :
    ∀ fuel i imgs d,
      (∀ j, j < fuel → generateSingleImage (env (i + j) 0) = Except.ok (f (i + j))) →
      (batchGo env count fuel i imgs d).1 =
        imgs ++ (List.range fuel).map (fun j => f (i + j)) := by
  intro fuel
  induction fuel with
  | zero => intro i imgs d _; simp [batchGo]
  | succ fu ih =>
    intro i imgs d hs
    have h0 : generateSingleImage (env i 0) = Except.ok (f i) := by
      have := hs 0 (by omega)
      simpa using this
    have hr : runSlot (env i) = { image := some (f i), delays := [], calls := 1 } :=
      slot_first_ok (env i) (f i) h0
    have hs2 : ∀ j, j < fu → generateSingleImage (env (i + 1 + j) 0) =
        Except.ok (f (i + 1 + j)) := by
      intro j hj
      have e1 : i + 1 + j = i + (j + 1) := by omega
      rw [e1]
      exact hs (j + 1) (by omega)
    have hmap : (List.range (fu + 1)).map (fun j => f (i + j)) =
        f i :: (List.range fu).map (fun j => f (i + 1 + j)) := by
      rw [List.range_succ_eq_map]
      simp only [List.map_cons, List.map_map, Nat.add_zero]
      congr 1
      apply List.map_congr_left
      intro j _
      simp only [Function.comp_apply]
      congr 1
      omega
    simp only [batchGo, hr]
    rw [ih (i + 1) _ _ hs2, hmap]
    simp [List.append_assoc]

theorem batchGo_all_fail (env : Nat → Nat → EndpointResult) (count : Nat) :
    ∀ fuel i imgs d,
      (∀ j, j < fuel → ∃ e, generateSingleImage (env (i + j) 0) = Except.error e ∧
        isRateLimit e = false ∧
        strIncludes e.message "Model responded with text" = false) →
      (batchGo env count fuel i imgs d).1 = imgs := by
  intro fuel
  induction fuel with
  | zero => intro i imgs d _; simp [batchGo]
  | succ fu ih =>
    intro i imgs d hs
    obtain ⟨e, he, hrl, htx⟩ := by
      have := hs 0 (by omega)
      simpa using this
    have hr : runSlot (env i) = { image := none, delays := [], calls := 1 } :=
      slot_first_terminal (env i) e he hrl htx
    have hs2 : ∀ j, j < fu → ∃ e2, generateSingleImage (env (i + 1 + j) 0) =
        Except.error e2 ∧ isRateLimit e2 = false ∧
        strIncludes e2.message "Model responded with text" = false := by
      intro j hj
      have e1 : i + 1 + j = i + (j + 1) := by omega
      rw [e1]
      exact hs (j + 1) (by omega)
    simp only [batchGo, hr]
    rw [ih (i + 1) _ _ hs2]
    simp

theorem batchImages_eq (env : Nat → Nat → EndpointResult) (count : Nat) :
    batchImages env count = (batchGo env count count 0 [] []).1 := rfl

theorem empty_append_str (s : String) : "" ++ s = s := rfl

/-- Claim C1: after all `count` slots have been processed, if the list of
successful images is empty the call throws the terminal "unable to generate
images" error and returns no partial list; otherwise it returns the possibly
shorter-than-requested list of successful images without raising. -/
theorem generateImage_empty_batch_error (env : Nat → Nat → EndpointResult) (count : Nat) :
    (batchImages env count = [] → generateImage env count = Except.error unableMsg) ∧
    (batchImages env count ≠ [] →
      generateImage env count = Except.ok (batchImages env count)) := by
  constructor
  · intro h
    simp [generateImage, h]
  · intro h
    have hne : (batchImages env count).length ≠ 0 := by
      simpa [List.length_eq_zero] using h
    simp [generateImage, hne]

/-- Witness for C1: a batch of 1 slot whose endpoint returns an empty
response yields no images, and the call throws the terminal error. -/
theorem generateImage_empty_batch_error_witness :
    generateImage envEmptyResp 1 = Except.error unableMsg :=
  (generateImage_empty_batch_error envEmptyResp 1).1 (by rfl)

/-- Claim C2: for every `count ≥ 1`, a non-throwing call to `generateImage`
returns a list of length at most `count` (and trivially at least 0); if every
per-slot generation attempt succeeds, the returned list has length exactly
`count`. -/
theorem generateImage_length_bounds (env : Nat → Nat → EndpointResult) (count : Nat) :
    (∀ l, generateImage env count = Except.ok l → l.length ≤ count) ∧
    (1 ≤ count →
      (∀ i, i < count → ∃ s, generateSingleImage (env i 0) = Except.ok s) →
      ∃ l, generateImage env count = Except.ok l ∧ l.length = count) := by
  constructor
  · intro l hl
    by_cases h : (batchImages env count).length = 0
    · simp [generateImage, h] at hl
    · simp [generateImage, h] at hl
      rw [← hl, batchImages_eq]
      have := batchGo_len_le env count count 0 [] []
      simpa using this
  · intro hc hs
    classical
    let f : Nat → String := fun i => if h : i < count then (hs i h).choose else ""
    have hf : ∀ j, j < count →
        generateSingleImage (env (0 + j) 0) = Except.ok (f (0 + j)) := by
      intro j hj
      simp only [Nat.zero_add]
      have hspec := (hs j hj).choose_spec
      simp only [f, dif_pos hj]
      exact hspec
    have him : batchImages env count = (List.range count).map (fun j => f (0 + j)) := by
      rw [batchImages_eq, batchGo_all_success env count f count 0 [] [] hf]
      simp
    have hne : (batchImages env count).length ≠ 0 := by
      rw [him]
      simp
      omega
    refine ⟨batchImages env count, by simp [generateImage, hne], ?_⟩
    rw [him]
    simp

/-- Witness for C2: two slots that always succeed produce exactly two
images. -/
theorem generateImage_length_bounds_witness :
    ∃ l, generateImage envAllOk 2 = Except.ok l ∧ l.length = 2 :=
  (generateImage_length_bounds envAllOk 2).2 (by omega)
    (fun _ _ => ⟨"data:image/png;base64,AA", rfl⟩)

/-- Claim C3 (evaluation at the failing input): when every attempt of a slot
fails with a rate-limit error, the loop makes exactly 3 attempts (the cap
holds) but waits 4000 ms, 8000 ms and 16000 ms — not the 2000/4000/8000 ms
the claim (and the source comment "Exponential backoff: 2s, 4s, 8s") states,
because `waitTime = 2000 * 2^attempts` is computed after `attempts++`; the
final 16 s wait happens even though the slot is then abandoned. -/
theorem slot_rate_limit_backoff_waits :
    runSlot envAllRateLimited =
      { image := none, delays := [4000, 8000, 16000], calls := 3 } := by rfl

/-- Claim C4: a slot whose first attempt fails with the "model responded
with text instead of an image" error is retried exactly one extra time after
a flat 1000 ms pause; if the text-only failure recurs on that retry the slot
is abandoned with no further attempts (2 calls in total). -/
theorem slot_text_retry_once (env : Nat → EndpointResult) (e0 : JsError)
    (h0 : generateSingleImage (env 0) = Except.error e0)
    (hrl : isRateLimit e0 = false)
    (htx : strIncludes e0.message "Model responded with text" = true) :
    ((runSlot env).delays.head? = some 1000 ∧ 2 ≤ (runSlot env).calls) ∧
    (∀ e1, generateSingleImage (env 1) = Except.error e1 → isRateLimit e1 = false →
      strIncludes e1.message "Model responded with text" = true →
      runSlot env = { image := none, delays := [1000], calls := 2 }) ∧
    (∀ s, generateSingleImage (env 1) = Except.ok s →
      runSlot env = { image := some s, delays := [1000], calls := 2 }) := by
  have hstep : runSlot env = slotGo env 2 1 [1000] := by
    simp [runSlot, slotGo, h0, hrl, htx]
  refine ⟨⟨?_, ?_⟩, ?_, ?_⟩
  · obtain ⟨d2, hd2⟩ := slotGo_delays_mono env 2 1 [1000]
    rw [hstep, hd2]
    rfl
  · rw [hstep]
    exact slotGo_calls_ge env 2 1 [1000] (by omega)
  · intro e1 h1 hrl1 htx1
    rw [hstep]
    simp [slotGo, h1, hrl1, htx1]
  · intro s h1
    rw [hstep]
    simp [slotGo, h1]

/-- Witness for C4: a slot that always answers with text only is retried
once after 1000 ms and then abandoned after exactly 2 calls. -/
theorem slot_text_retry_once_witness :
    runSlot envTextOnly = { image := none, delays := [1000], calls := 2 } :=
  (slot_text_retry_once envTextOnly textOnlyErr rfl rfl rfl).2.1 textOnlyErr rfl rfl rfl

/-- Claim C5: if the first `k` slots (0 < k ≤ count) succeed on their first
attempt and every remaining slot fails with a non-retryable terminal error
(neither a rate limit nor a text-only response), the call returns exactly the
`k` images of the successful slots, in slot order, and does not throw. -/
theorem generateImage_partial_success (env : Nat → Nat → EndpointResult)
    (count k : Nat) (f : Nat → String) (hk : 0 < k) (hkc : k ≤ count)
    (hsucc : ∀ i, i < k → generateSingleImage (env i 0) = Except.ok (f i))
    (hfail : ∀ i, k ≤ i → i < count → ∃ e,
      generateSingleImage (env i 0) = Except.error e ∧ isRateLimit e = false ∧
      strIncludes e.message "Model responded with text" = false) :
    generateImage env count = Except.ok ((List.range k).map f) := by
  have hck : k + (count - k) = count := by omega
  have h1 : batchImages env count = (batchGo env count (k + (count - k)) 0 [] []).1 := by
    rw [batchImages_eq, hck]
  have hphase1 : (batchGo env count k 0 [] []).1 = (List.range k).map f := by
    rw [batchGo_all_success env count f k 0 [] [] (fun j hj => by simpa using hsucc j hj)]
    simp
  have hfail2 : ∀ j, j < count - k → ∃ e,
      generateSingleImage (env (0 + k + j) 0) = Except.error e ∧ isRateLimit e = false ∧
      strIncludes e.message "Model responded with text" = false := by
    intro j hj
    exact hfail (0 + k + j) (by omega) (by omega)
  have him : batchImages env count = (List.range k).map f := by
    rw [h1, batchGo_split env count k (count - k) 0 [] [],
      batchGo_all_fail env count (count - k) (0 + k) _ _ hfail2]
    exact hphase1
  have hne : (batchImages env count).length ≠ 0 := by
    rw [him]
    simp
    omega
  have hk0 : ¬k = 0 := by omega
  simp [generateImage, hne, him, hk0]

/-- Witness for C5: slot 0 succeeds, slot 1 fails with a terminal safety
error; the batch returns exactly the one image of slot 0. -/
theorem generateImage_partial_success_witness :
    generateImage envPartial 2 =
      Except.ok ((List.range 1).map (fun _ => "data:image/png;base64,AA")) :=
  generateImage_partial_success envPartial 2 1 (fun _ => "data:image/png;base64,AA")
    (by omega) (by omega)
    (fun i hi => by
      have hi0 : i = 0 := by omega
      subst hi0
      rfl)
    (fun i h1 h2 => ⟨safetyErr, by
      have hi1 : i = 1 := by omega
      subst hi1
      rfl, rfl, rfl⟩)

/-- Claim C6: a single generation attempt classifies the endpoint response:
an inline-image part wins and the attempt succeeds with the
`data:image/png;base64,<data>` URI of the first such part; otherwise any
truthy text makes the attempt fail with the "model responded with text
instead of an image" error over the concatenated text; otherwise the attempt
fails with the "no image data returned" error. -/
theorem generateSingleImage_classification (parts : List ContentPart) :
    (∀ d, firstImageData parts = some d →
      generateSingleImage (EndpointResult.ok parts) =
        Except.ok ("data:image/png;base64," ++ d)) ∧
    (firstImageData parts = none → allText parts ≠ "" →
      generateSingleImage (EndpointResult.ok parts) =
        Except.error (textRefusalErr (allText parts))) ∧
    (firstImageData parts = none → allText parts = "" →
      generateSingleImage (EndpointResult.ok parts) = Except.error noImageErr) := by
  have hs : generateSingleImage (EndpointResult.ok parts) = scanSpec parts "" := by
    simpa [generateSingleImage] using scanParts_eq_spec parts ""
  refine ⟨?_, ?_, ?_⟩
  · intro d hd
    rw [hs]
    simp [scanSpec, hd]
  · intro hn ht
    rw [hs]
    simp [scanSpec, hn, empty_append_str, ht]
  · intro hn ht
    rw [hs]
    simp [scanSpec, hn, empty_append_str, ht]

/-- Witness for C6: a response with one inline-data part succeeds with the
corresponding data URI. -/
theorem generateSingleImage_classification_witness :
    generateSingleImage (EndpointResult.ok [sampleImagePart]) =
      Except.ok ("data:image/png;base64," ++ "AA") :=
  (generateSingleImage_classification [sampleImagePart]).1 "AA" rfl

/-- Claim C7: a style that is not one of the eight named styles falls back
to the default `'Digital Art'` fragment, so the composed prompt equals the
one composed for style `"Digital Art"` with the same text and flag. -/
theorem composeImagePrompt_unknown_style_default (p : String) (a : Bool) (style : String)
    (h : style ∉ ["Cinematic", "Photorealistic", "Anime", "Watercolor",
      "Impressionistic", "Surrealist", "Bengali Art", "Digital Art"]) :
    composeImagePrompt p style a = composeImagePrompt p "Digital Art" a := by
  simp only [List.mem_cons, List.not_mem_nil, or_false, not_or] at h
  obtain ⟨h1, h2, h3, h4, h5, h6, h7, h8⟩ := h
  have hnone : stylePrompts style = none := by
    simp [stylePrompts, h1, h2, h3, h4, h5, h6, h7, h8]
  have hda : stylePrompts "Digital Art" =
      some "Style: Digital art, vibrant, clear, detailed." := by rfl
  simp [composeImagePrompt, selectedStyle, hnone, hda]

/-- Witness for C7: the unrecognized style `"Sketch"` composes the same
prompt as `"Digital Art"`. -/
theorem composeImagePrompt_unknown_style_default_witness :
    composeImagePrompt "a cat" "Sketch" false =
      composeImagePrompt "a cat" "Digital Art" false :=
  composeImagePrompt_unknown_style_default "a cat" false "Sketch" (by decide)

/-- Claim C8: prompt composition is deterministic — two calls with equal
`(promptText, style, isAdult)` inputs compose byte-identical prompts. -/
theorem composeImagePrompt_deterministic (p1 p2 s1 s2 : String) (a1 a2 : Bool)
    (hp : p1 = p2) (hs : s1 = s2) (ha : a1 = a2) :
    composeImagePrompt p1 s1 a1 = composeImagePrompt p2 s2 a2 := by
  rw [hp, hs, ha]

/-- Witness for C8 at concrete equal inputs. -/
theorem composeImagePrompt_deterministic_witness :
    composeImagePrompt "a cat" "Anime" true = composeImagePrompt "a cat" "Anime" true :=
  composeImagePrompt_deterministic "a cat" "a cat" "Anime" "Anime" true true rfl rfl rfl

/-- Claim C9: the five text helpers are total functions into `String` (they
never throw: a thrown endpoint error and a missing `response.text` both
degrade to the helper's empty or fixed fallback string). -/
theorem textHelpers_never_throw (genre currentText context text chapter : String)
    (isAdult : Bool) :
    generateStoryIdea genre isAdult (Except.error ()) =
      "Error generating idea. Please check your API key or connection." ∧
    expandText currentText context (Except.error ()) = "" ∧
    suggestCharacter genre (Except.error ()) = "" ∧
    translateToBengali text (Except.error ()) = "Translation failed." ∧
    generateSceneDescription chapter genre (Except.error ()) = "A scene from the story." ∧
    generateStoryIdea genre isAdult (Except.ok none) = "Could not generate idea." ∧
    expandText currentText context (Except.ok none) = "" ∧
    suggestCharacter genre (Except.ok none) = "" ∧
    translateToBengali text (Except.ok none) = "" ∧
    generateSceneDescription chapter genre (Except.ok none) =
      "A dramatic scene from the story." :=
  ⟨rfl, rfl, rfl, rfl, rfl, rfl, rfl, rfl, rfl, rfl⟩

theorem recentTextOf_eq (s : String) : recentTextOf s = sliceLast s 500 := by
  by_cases h : s = ""
  · subst h
    rfl
  · simp [recentTextOf, h]

/-- Claim C10: `expandText` depends only on the last 500 characters of
`currentText` — two current texts agreeing on their final 500 characters
compose, with the same context, the identical prompt for the endpoint. -/
theorem expandPrompt_last500 (s1 s2 c : String)
    (h : sliceLast s1 500 = sliceLast s2 500) :
    expandPrompt s1 c = expandPrompt s2 c := by
  simp only [expandPrompt, recentTextOf_eq, h]

/-- Witness for C10: 500 copies of `a`, with and without a leading `b`,
agree on their last 500 characters and compose the same prompt. -/
theorem expandPrompt_last500_witness :
    expandPrompt (String.mk (List.replicate 500 'a')) "ctx" =
      expandPrompt ("b" ++ String.mk (List.replicate 500 'a')) "ctx" :=
  expandPrompt_last500 (String.mk (List.replicate 500 'a'))
    ("b" ++ String.mk (List.replicate 500 'a')) "ctx" (by rfl)
